import Mathlib

/-!
Shallow embedding of the aijmiroshopp retail-management application:
the Supabase-backed repository layer (src/lib/supabase-repo.ts), the
register-sale submission flow (src/app/register-sale/page.tsx), the
sales-order submission flow with its localStorage tickets configuration
(src/unnamed/part_005 and src/unnamed/part_000), the credential check
(src/lib/auth-context.tsx), and the inventory stock validation
(src/app/inventory/page.tsx).

Monetary amounts and stock counts are modelled as integers; JavaScript
`Math.max` is `max`; a fallible network call is driven by an explicit
failure schedule `flt : Nat → Bool` consulted once per Supabase call, a
`true` entry meaning that call throws.
-/

namespace Aijmiroshop

/-- Product row, from the `products` table and the `Product` type of
src/lib/supabase-repo.ts.  The image payload is collapsed to an opaque
optional string; timestamps are not modelled. -/
structure ProductRow where
  id : String
  name : String
  color : String
  stock : Int
  cost : Int
  salePrice : Int
  image : Option String
deriving Repr, DecidableEq

/-- Client row, from the `clients` table. -/
structure ClientRow where
  id : String
  name : String
  documentId : String
  phone : String
  address : String
deriving Repr, DecidableEq

/-- Order kind `OrderKind` of src/lib/supabase-repo.ts: "sale" | "sales-order". -/
inductive OrderKind where
  | sale
  | salesOrder
deriving Repr, DecidableEq

/-- Role of an authenticated user (src/lib/auth-context.tsx). -/
inductive Role where
  | admin
  | operator
deriving Repr, DecidableEq

/-- Order header row, from the `orders` table (src/supabase/schema.sql).
`sequence` is the backend auto-increment column. -/
structure OrderRow where
  id : String
  kind : OrderKind
  total : Int
  payment_method : Option String
  performed_by_username : Option String
  performed_by_role : Option Role
  client_id : Option String
  client_name : Option String
  client_document_id : Option String
  client_phone : Option String
  delivery_address : Option String
  subtotal : Option Int
  discount : Option Int
  notes : Option String
  sequence : Nat
deriving Repr, DecidableEq

/-- Order item row, from the `order_items` table. -/
structure ItemRow where
  id : String
  order_id : String
  product_id : Option String
  product_name : Option String
  color : Option String
  qty : Int
  unit_price : Int
  subtotal : Int
deriving Repr, DecidableEq

/-- The backend store: the four tables plus the auto-increment counter
feeding `orders.sequence` (bigserial). -/
structure DB where
  products : List ProductRow
  clients : List ClientRow
  orders : List OrderRow
  order_items : List ItemRow
  nextSeq : Nat
deriving Repr, DecidableEq

/-- Generic upsert keyed on an id, as performed by Supabase `.upsert` on a
primary-key conflict: update the existing row in place, otherwise append. -/
def upsertBy {α : Type} (getId : α → String) (rows : List α) (r : α) : List α :=
  if rows.any (fun x => getId x == getId r) then
    rows.map (fun x => if getId x == getId r then r else x)
  else
    rows ++ [r]

/-- Draft accepted by `upsertProduct` (id optional; backend fills it). -/
structure ProductDraft where
  id : Option String
  name : String
  color : String
  stock : Int
  cost : Int
  salePrice : Int
  image : Option String
deriving Repr, DecidableEq

/-- Function `upsertProduct` of src/lib/supabase-repo.ts: `id = p.id ?? uid()`, then
upsert the payload and return the stored row.  `freshId` stands for the
random `uid()` value. -/
def upsertProduct (freshId : String) (db : DB) (p : ProductDraft) : DB × ProductRow :=
  let id := p.id.getD freshId
  let row : ProductRow :=
    { id := id, name := p.name, color := p.color, stock := p.stock,
      cost := p.cost, salePrice := p.salePrice, image := p.image }
  ({ db with products := upsertBy ProductRow.id db.products row }, row)

/-- Draft accepted by `upsertClient`. -/
structure ClientDraft where
  id : Option String
  name : String
  documentId : String
  phone : String
  address : String
deriving Repr, DecidableEq

/-- Function `upsertClient` of src/lib/supabase-repo.ts. -/
def upsertClient (freshId : String) (db : DB) (c : ClientDraft) : DB × ClientRow :=
  let id := c.id.getD freshId
  let row : ClientRow :=
    { id := id, name := c.name, documentId := c.documentId,
      phone := c.phone, address := c.address }
  ({ db with clients := upsertBy ClientRow.id db.clients row }, row)

/-- Function `deleteProduct`: delete rows whose id matches. -/
def deleteProduct (db : DB) (id : String) : DB :=
  { db with products := db.products.filter (fun p => p.id != id) }

/-- Function `deleteClient`. -/
def deleteClient (db : DB) (id : String) : DB :=
  { db with clients := db.clients.filter (fun c => c.id != id) }

/-- Function `deleteOrder`: the order row is deleted and its items cascade
(`on delete cascade` in src/supabase/schema.sql). -/
def deleteOrder (db : DB) (id : String) : DB :=
  { db with orders := db.orders.filter (fun o => o.id != id),
            order_items := db.order_items.filter (fun it => it.order_id != id) }

/-- Function `clearOrders`: deletes every order created after 1970, i.e. all of
them, with items cascading. -/
def clearOrders (db : DB) : DB :=
  { db with orders := [], order_items := [] }

/-- First stock value among products with the given id (Supabase
`select("stock").eq("id", pid).maybeSingle()`). -/
def stockOf : List ProductRow → String → Option Int
  | [], _ => none
  | p :: ps, pid => if p.id = pid then some p.stock else stockOf ps pid

/-- Supabase `update({ stock: next }).eq("id", pid)`: set the stock of every row
whose id matches. -/
def updateStockList (ps : List ProductRow) (pid : String) (next : Int) : List ProductRow :=
  ps.map (fun p => if p.id = pid then { p with stock := next } else p)

/-- Item draft inside the `createOrder` argument (no id / order id yet). -/
structure OrderItemDraft where
  product_id : Option String
  product_name : Option String
  color : Option String
  qty : Int
  unit_price : Int
  subtotal : Int
deriving Repr, DecidableEq

/-- Order draft accepted by `createOrder` (no id, sequence, timestamps). -/
structure OrderDraft where
  kind : OrderKind
  total : Int
  payment_method : Option String
  performed_by_username : Option String
  performed_by_role : Option Role
  client_id : Option String
  client_name : Option String
  client_document_id : Option String
  client_phone : Option String
  delivery_address : Option String
  subtotal : Option Int
  discount : Option Int
  notes : Option String
  items : List OrderItemDraft
deriving Repr, DecidableEq

/-- The stock-decrement loop of `createOrder` (src/lib/supabase-repo.ts,
lines 311-324): for each item, re-read the product's stock (call `k`),
compute `max 0 (current - qty)` with a missing product read as stock 0,
and write it back (call `k+1`); either call failing throws, keeping the
writes made so far.  Returns the product table, the next call index, and
whether the loop completed. -/
def decrementStock (flt : Nat → Bool) : Nat → List ProductRow → List OrderItemDraft →
    List ProductRow × Nat × Bool
  | k, ps, [] => (ps, k, true)
  | k, ps, it :: rest =>
    if flt k then (ps, k + 1, false)
    else
      let current : Int :=
        (match it.product_id with
         | none => none
         | some pid => stockOf ps pid).getD 0
      let next : Int := max 0 (current - it.qty)
      if flt (k + 1) then (ps, k + 2, false)
      else
        let ps1 :=
          match it.product_id with
          | none => ps
          | some pid => updateStockList ps pid next
        decrementStock flt (k + 2) ps1 rest

/-- The order header row inserted by `createOrder`, with the backend
assigning `sequence` from its auto-increment counter. -/
def orderHeaderRow (orderId : String) (seq : Nat) (draft : OrderDraft) : OrderRow :=
  { id := orderId, kind := draft.kind, total := draft.total,
    payment_method := draft.payment_method,
    performed_by_username := draft.performed_by_username,
    performed_by_role := draft.performed_by_role,
    client_id := draft.client_id, client_name := draft.client_name,
    client_document_id := draft.client_document_id,
    client_phone := draft.client_phone,
    delivery_address := draft.delivery_address,
    subtotal := draft.subtotal, discount := draft.discount,
    notes := draft.notes, sequence := seq }

/-- The item rows inserted by `createOrder` (fresh ids zipped in). -/
def buildItemRows (orderId : String) (itemIds : List String)
    (items : List OrderItemDraft) : List ItemRow :=
  (itemIds.zip items).map (fun p =>
    { id := p.1, order_id := orderId, product_id := p.2.product_id,
      product_name := p.2.product_name, color := p.2.color,
      qty := p.2.qty, unit_price := p.2.unit_price, subtotal := p.2.subtotal })

/-- The order value composed and returned by `createOrder` on success. -/
structure CreatedOrder where
  row : OrderRow
  items : List ItemRow
deriving Repr, DecidableEq

/-- Function `createOrder` of src/lib/supabase-repo.ts: insert the order header
(call 0), insert the items (call 1), then for `sale` kind run the
per-item stock decrement loop (calls 2, 3, ...).  A thrown call aborts
the remaining steps but keeps earlier writes; `none` in the second
component means the function threw. -/
def createOrder (flt : Nat → Bool) (orderId : String) (itemIds : List String)
    (db : DB) (draft : OrderDraft) : DB × Option CreatedOrder :=
  if flt 0 then (db, none)
  else
    let headerRow := orderHeaderRow orderId db.nextSeq draft
    let db1 : DB := { db with orders := db.orders ++ [headerRow], nextSeq := db.nextSeq + 1 }
    if flt 1 then (db1, none)
    else
      let itemRows := buildItemRows orderId itemIds draft.items
      let db2 : DB := { db1 with order_items := db1.order_items ++ itemRows }
      match draft.kind with
      | OrderKind.sale =>
        let res := decrementStock flt 2 db2.products draft.items
        let db3 : DB := { db2 with products := res.1 }
        if res.2.2 then (db3, some { row := headerRow, items := itemRows })
        else (db3, none)
      | OrderKind.salesOrder => (db2, some { row := headerRow, items := itemRows })

/-! ## Register-sale page (src/app/register-sale/page.tsx) -/

/-- Authenticated user (src/lib/auth-context.tsx). -/
structure AppUser where
  username : String
  role : Role
deriving Repr, DecidableEq

/-- A cart line of the register-sale and sales-order pages: the product
snapshot taken when the line was added, plus the chosen quantity. -/
structure CartLine where
  product : ProductRow
  quantity : Int
deriving Repr, DecidableEq

/-- JavaScript `String.prototype.trim` (ASCII whitespace), implemented
over the character list so that it evaluates by kernel reduction. -/
def trimJs (s : String) : String :=
  ⟨(((s.data.dropWhile Char.isWhitespace).reverse).dropWhile Char.isWhitespace).reverse⟩

/-- JavaScript `String.prototype.toLowerCase` (ASCII behaviour),
implemented over the character list. -/
def toLowerJs (s : String) : String :=
  ⟨s.data.map Char.toLower⟩

/-- The page-level `subtotal = cart.reduce((sum, line) => sum + line.product.salePrice * line.quantity, 0)`. -/
def cartSubtotal (cart : List CartLine) : Int :=
  cart.foldl (fun sum line => sum + line.product.salePrice * line.quantity) 0

/-- One entry of the `problems` list built during stock re-validation:
either the product no longer exists, or its re-fetched stock is below
the required quantity. -/
inductive StockProblem where
  | notFound (productId : String) (name : String) (color : String)
  | insufficient (productId : String) (name : String) (color : String)
      (available : Int) (required : Int)
deriving Repr, DecidableEq

/-- The problem recorded for one cart line against the re-fetched
inventory (src/app/register-sale/page.tsx, lines 574-585), `none` when
the line passes validation. -/
def lineProblem (inventory : List ProductRow) (line : CartLine) : Option StockProblem :=
  match stockOf inventory line.product.id with
  | none => some (StockProblem.notFound line.product.id line.product.name line.product.color)
  | some available =>
    if available < line.quantity then
      some (StockProblem.insufficient line.product.id line.product.name line.product.color
        available line.quantity)
    else
      none

/-- The full `problems` list, one entry per offending cart line, in cart
order. -/
def stockProblems (inventory : List ProductRow) (cart : List CartLine) : List StockProblem :=
  cart.filterMap (lineProblem inventory)

/-- Outcome of the register-sale `handleSubmit`. -/
inductive SaleSubmitResult where
  /-- Guard `if (!user) return;` — nothing happens, no message. -/
  | noUser
  /-- One of the inline validation errors (`setFormError`). -/
  | validationError (message : String)
  /-- The itemized insufficient-stock error. -/
  | stockError (problems : List StockProblem)
  /-- Call `createOrder` threw; the DB keeps whatever it wrote. -/
  | storageFailure
  /-- The sale was persisted. -/
  | ok (created : CreatedOrder)
deriving Repr, DecidableEq

/-- Normalization `deliveryAddress.trim() || "Retiro en tienda"`. -/
def normalizeAddress (addr : String) : String :=
  if trimJs addr = "" then "Retiro en tienda" else trimJs addr

/-- Handler `handleSubmit` of src/app/register-sale/page.tsx: guard on user,
client, cart, discount; re-fetch the inventory and validate stock; on
success call `createOrder` with kind `sale`.  `discountAmount` is the
parsed discount input; `flt`, `orderId`, `itemIds` drive `createOrder`. -/
def registerSaleSubmit (flt : Nat → Bool) (orderId : String) (itemIds : List String)
    (db : DB) (user : Option AppUser) (selectedClient : Option ClientRow)
    (cart : List CartLine) (discountAmount : Int)
    (paymentMethod deliveryAddress notes : String) : DB × SaleSubmitResult :=
  match user with
  | none => (db, SaleSubmitResult.noUser)
  | some u =>
    match selectedClient with
    | none => (db, SaleSubmitResult.validationError
        "Selecciona o crea un cliente antes de continuar.")
    | some client =>
      if cart.length = 0 then
        (db, SaleSubmitResult.validationError "Agrega al menos un producto al carrito.")
      else
        let subtotal := cartSubtotal cart
        if subtotal < discountAmount then
          (db, SaleSubmitResult.validationError "El descuento no puede superar el subtotal.")
        else
          let problems := stockProblems db.products cart
          if problems.length = 0 then
            let total : Int := max 0 (subtotal - discountAmount)
            let draft : OrderDraft :=
              { kind := OrderKind.sale, total := total,
                payment_method := some paymentMethod,
                performed_by_username := some u.username,
                performed_by_role := some u.role,
                client_id := some client.id, client_name := some client.name,
                client_document_id := some client.documentId,
                client_phone := some client.phone,
                delivery_address := some (normalizeAddress deliveryAddress),
                subtotal := some subtotal, discount := some discountAmount,
                notes := some (trimJs notes),
                items := cart.map (fun line =>
                  { product_id := some line.product.id,
                    product_name := some line.product.name,
                    color := some line.product.color,
                    qty := line.quantity,
                    unit_price := line.product.salePrice,
                    subtotal := line.product.salePrice * line.quantity }) }
            match createOrder flt orderId itemIds db draft with
            | (db2, some created) => (db2, SaleSubmitResult.ok created)
            | (db2, none) => (db2, SaleSubmitResult.storageFailure)
          else
            (db, SaleSubmitResult.stockError problems)

/-! ## Cart handlers (src/app/register-sale/page.tsx, lines 454-493) -/

/-- Handler `handleAddProduct`: when a line for the product already exists, bump
its quantity clamped to the passed product's stock; otherwise append a
new line with quantity 1. -/
def handleAddProduct (cart : List CartLine) (product : ProductRow) : List CartLine :=
  if cart.any (fun line => line.product.id == product.id) then
    cart.map (fun line =>
      if line.product.id = product.id then
        { line with quantity := min (line.quantity + 1) product.stock }
      else line)
  else
    cart ++ [{ product := product, quantity := 1 }]

/-- Handler `handleUpdateQuantity`: set the quantity of the matching line,
clamped to `[1, line.product.stock]`. -/
def handleUpdateQuantity (cart : List CartLine) (productId : String) (quantity : Int) :
    List CartLine :=
  cart.map (fun line =>
    if line.product.id = productId then
      { line with quantity := max 1 (min quantity line.product.stock) }
    else line)

/-- Handler `handleAdjustQuantity`: add `delta` to the quantity of the matching
line, clamped to `[1, line.product.stock]`. -/
def handleAdjustQuantity (cart : List CartLine) (productId : String) (delta : Int) :
    List CartLine :=
  cart.map (fun line =>
    if line.product.id = productId then
      { line with quantity := max 1 (min (line.quantity + delta) line.product.stock) }
    else line)

/-- The cart invariant: every line's quantity lies between 1 and the
stock of the product snapshot stored in that line. -/
def CartInv (cart : List CartLine) : Prop :=
  ∀ line ∈ cart, 1 ≤ line.quantity ∧ line.quantity ≤ line.product.stock

instance : DecidablePred CartInv := fun cart =>
  List.decidableBAll _ cart

/-! ## Tickets configuration (src/unnamed/part_000) and the sales-order
submission (src/unnamed/part_005, `SalesOrdersPage.handleSubmit`) -/

/-- One side of the tickets configuration.  `nextNumber` is declared as a
number but lives in a JSON document, so a stored value on which
JavaScript `Number(...)` yields `NaN` is modelled as `none`. -/
structure TicketSideConfig where
  nextNumber : Option Int
  farewell : String
deriving Repr, DecidableEq

/-- The tickets configuration document. -/
structure TicketsConfig where
  companyName : String
  subtitle : String
  sale : TicketSideConfig
  order : TicketSideConfig
deriving Repr, DecidableEq

/-- Default `DEFAULT_TICKETS_CONFIG` of src/unnamed/part_000. -/
def DEFAULT_TICKETS_CONFIG : TicketsConfig :=
  { companyName := "AIJMIROSHOP",
    subtitle := "Sistema de Gestión de Inventario",
    sale := { nextNumber := some 1, farewell := "¡Gracias por su compra!" },
    order := { nextNumber := some 1, farewell := "¡Gracias por su preferencia!" } }

/-- Function `getTicketsConfig` of src/unnamed/part_000: return the stored
document when present and its `companyName`, `subtitle`, `sale` and
`order` fields are all truthy, else a copy of the default.  The stored
slot is `none` when absent or unparseable. -/
def getTicketsConfig (stored : Option TicketsConfig) : TicketsConfig :=
  match stored with
  | some parsed =>
    if parsed.companyName ≠ "" ∧ parsed.subtitle ≠ "" then parsed
    else DEFAULT_TICKETS_CONFIG
  | none => DEFAULT_TICKETS_CONFIG

/-- JavaScript `Number(x) || 1`: `NaN` and `0` collapse to 1. -/
def numberOr1 : Option Int → Int
  | none => 1
  | some n => if n = 0 then 1 else n

/-- An item of a locally stored sales order (`SalesOrder` UI entity). -/
structure SalesOrderItem where
  productId : String
  productName : String
  color : String
  quantity : Int
  unitPrice : Int
  lineTotal : Int
deriving Repr, DecidableEq

/-- A locally stored sales order. -/
structure SalesOrder where
  id : String
  kind : OrderKind
  performedByUsername : String
  performedByRole : Role
  clientId : String
  clientName : String
  clientDocumentId : String
  clientPhone : String
  deliveryAddress : String
  paymentMethod : String
  sequence : Int
  subtotal : Int
  discount : Int
  total : Int
  notes : String
  items : List SalesOrderItem
deriving Repr, DecidableEq

/-- Browser-local state used by the sales-order page: the tickets config
document and the stored sales-order history. -/
structure LocalState where
  tickets : Option TicketsConfig
  salesOrders : List SalesOrder
deriving Repr, DecidableEq

/-- Outcome of the sales-order `handleSubmit`. -/
inductive SalesOrderResult where
  | noUser
  | validationError (message : String)
  | ok (order : SalesOrder)
deriving Repr, DecidableEq

/-- Handler `handleSubmit` of `SalesOrdersPage` (src/unnamed/part_005, lines
1441-1530): guard on user, client, cart, discount; draw the sequence
number from the tickets config (`Math.max(1, Number(cfg.order.nextNumber) || 1)`),
write the config back with `nextNumber = sequence + 1`, and prepend the
composed order to the stored history. -/
def salesOrderSubmit (newId : String) (st : LocalState) (user : Option AppUser)
    (selectedClient : Option ClientRow) (cart : List CartLine) (discountAmount : Int)
    (paymentMethod deliveryAddress notes : String) : LocalState × SalesOrderResult :=
  match user with
  | none => (st, SalesOrderResult.noUser)
  | some u =>
    match selectedClient with
    | none => (st, SalesOrderResult.validationError
        "Selecciona o crea un cliente antes de continuar.")
    | some client =>
      if cart.length = 0 then
        (st, SalesOrderResult.validationError "Agrega al menos un producto al carrito.")
      else
        let subtotal := cartSubtotal cart
        if subtotal < discountAmount then
          (st, SalesOrderResult.validationError "El descuento no puede superar el subtotal.")
        else
          let cfg := getTicketsConfig st.tickets
          let nextSequence : Int := max 1 (numberOr1 cfg.order.nextNumber)
          let updated : TicketsConfig :=
            { cfg with order := { cfg.order with nextNumber := some (nextSequence + 1) } }
          let st1 : LocalState := { st with tickets := some updated }
          let order : SalesOrder :=
            { id := newId, kind := OrderKind.salesOrder,
              performedByUsername := u.username, performedByRole := u.role,
              clientId := client.id, clientName := client.name,
              clientDocumentId := client.documentId, clientPhone := client.phone,
              deliveryAddress := normalizeAddress deliveryAddress,
              paymentMethod := paymentMethod, sequence := nextSequence,
              subtotal := subtotal, discount := discountAmount,
              total := max 0 (subtotal - discountAmount), notes := trimJs notes,
              items := cart.map (fun line =>
                { productId := line.product.id, productName := line.product.name,
                  color := line.product.color, quantity := line.quantity,
                  unitPrice := line.product.salePrice,
                  lineTotal := line.product.salePrice * line.quantity }) }
          let st2 : LocalState := { st1 with salesOrders := order :: st1.salesOrders }
          (st2, SalesOrderResult.ok order)

/-! ## Credential check (src/lib/auth-context.tsx, `AuthProvider.login`) -/

/-- An operator record of the users configuration. -/
structure OperatorUser where
  id : String
  username : String
  password : String
  active : Bool
deriving Repr, DecidableEq

/-- The admin record. -/
structure AdminUser where
  username : String
  password : String
deriving Repr, DecidableEq

/-- The users configuration document. -/
structure UsersConfig where
  admin : AdminUser
  operators : List OperatorUser
deriving Repr, DecidableEq

/-- The generic failure message returned for every failed login. -/
def invalidCredentialsMessage : String :=
  "Credenciales incorrectas. Verifica usuario, contraseña y rol."

/-- Result of `login`. -/
inductive LoginResponse where
  | success (user : AppUser)
  | failure (message : String)
deriving Repr, DecidableEq

/-- Method `AuthProvider.login`: trim the username; for the admin role compare
username case-insensitively and password exactly against the admin
record; for the operator role search the operator list for an active
record matching the same way. -/
def login (cfg : UsersConfig) (username password : String) (role : Role) : LoginResponse :=
  let normalizedUsername := trimJs username
  match role with
  | Role.admin =>
    if toLowerJs normalizedUsername = toLowerJs cfg.admin.username ∧
        password = cfg.admin.password then
      LoginResponse.success { username := cfg.admin.username, role := Role.admin }
    else
      LoginResponse.failure invalidCredentialsMessage
  | Role.operator =>
    match cfg.operators.find? (fun o =>
        o.active && (toLowerJs o.username == toLowerJs normalizedUsername) &&
        (o.password == password)) with
    | some op => LoginResponse.success { username := op.username, role := Role.operator }
    | none => LoginResponse.failure invalidCredentialsMessage

/-- The success condition the spec states for `login`. -/
def loginSpecCond (cfg : UsersConfig) (username password : String) (role : Role) : Prop :=
  match role with
  | Role.admin =>
    toLowerJs (trimJs username) = toLowerJs cfg.admin.username ∧ password = cfg.admin.password
  | Role.operator =>
    ∃ op ∈ cfg.operators, op.active = true ∧
      toLowerJs op.username = toLowerJs (trimJs username) ∧ op.password = password

/-! ## Reachable backend states (for the stock invariant) -/

/-- The product-stock invariant: every product row has `stock ≥ 0`. -/
def StockInv (db : DB) : Prop :=
  ∀ p ∈ db.products, 0 ≤ p.stock

/-- One backend write issued by the application.  Product upserts come
from the inventory page, whose form handler and spreadsheet import both
reject a stock that is `NaN` or negative
(src/app/inventory/page.tsx, lines 370-374 and 600-603), hence the
`0 ≤ p.stock` hypothesis. -/
inductive AppStep : DB → DB → Prop where
  | inventoryUpsert (db : DB) (freshId : String) (p : ProductDraft)
      (hstock : 0 ≤ p.stock) : AppStep db (upsertProduct freshId db p).1
  | clientUpsert (db : DB) (freshId : String) (c : ClientDraft) :
      AppStep db (upsertClient freshId db c).1
  | productDelete (db : DB) (id : String) : AppStep db (deleteProduct db id)
  | clientDelete (db : DB) (id : String) : AppStep db (deleteClient db id)
  | orderCreate (db : DB) (flt : Nat → Bool) (orderId : String)
      (itemIds : List String) (draft : OrderDraft) :
      AppStep db (createOrder flt orderId itemIds db draft).1
  | orderDelete (db : DB) (id : String) : AppStep db (deleteOrder db id)
  | ordersClear (db : DB) : AppStep db (clearOrders db)

/-- States reachable from `db0` through application writes. -/
inductive Reachable (db0 : DB) : DB → Prop where
  | refl : Reachable db0 db0
  | step {db db' : DB} : Reachable db0 db → AppStep db db' → Reachable db0 db'

/-! ## Helper lemmas -/

theorem mem_upsertBy {α : Type} (getId : α → String) (rows : List α) (r x : α)
    (hx : x ∈ upsertBy getId rows r) : x ∈ rows ∨ x = r := by
  unfold upsertBy at hx
  by_cases hex : rows.any (fun y => getId y == getId r)
  · simp only [hex, if_true] at hx
    rcases List.mem_map.mp hx with ⟨y, hy, hxy⟩
    by_cases hid : (getId y == getId r) = true
    · right
      simp only [hid, if_true] at hxy
      exact hxy.symm
    · left
      simp only [hid, if_false] at hxy
      exact hxy ▸ hy
  · simp only [hex, if_false] at hx
    rcases List.mem_append.mp hx with h | h
    · exact Or.inl h
    · exact Or.inr (List.mem_singleton.mp h)

theorem upsertBy_length_of_exists {α : Type} (getId : α → String) (rows : List α) (r : α)
    (h : ∃ x ∈ rows, getId x = getId r) :
    (upsertBy getId rows r).length = rows.length := by
  have hany : rows.any (fun y => getId y == getId r) = true := by
    rcases h with ⟨x, hx, hid⟩
    exact List.any_eq_true.mpr ⟨x, hx, beq_iff_eq.mpr hid⟩
  simp [upsertBy, hany]

theorem upsertBy_of_fresh {α : Type} (getId : α → String) (rows : List α) (r : α)
    (h : ∀ x ∈ rows, getId x ≠ getId r) :
    upsertBy getId rows r = rows ++ [r] := by
  have hany : rows.any (fun y => getId y == getId r) = false := by
    rw [List.any_eq_false]
    intro x hx
    simpa using h x hx
  simp [upsertBy, hany]

theorem stockOf_updateStockList_same (ps : List ProductRow) (pid : String) (next : Int)
    (h : (stockOf ps pid).isSome) :
    stockOf (updateStockList ps pid next) pid = some next := by
  induction ps with
  | nil => simp [stockOf] at h
  | cons p ps ih =>
    show stockOf ((if p.id = pid then { p with stock := next } else p)
        :: updateStockList ps pid next) pid = some next
    by_cases hid : p.id = pid
    · simp [stockOf, hid]
    · have h' : (stockOf ps pid).isSome := by simpa [stockOf, hid] using h
      simpa [stockOf, hid] using ih h'

theorem stockOf_updateStockList_ne (ps : List ProductRow) (pid pid' : String) (next : Int)
    (h : pid ≠ pid') :
    stockOf (updateStockList ps pid' next) pid = stockOf ps pid := by
  induction ps with
  | nil => rfl
  | cons p ps ih =>
    show stockOf ((if p.id = pid' then { p with stock := next } else p)
        :: updateStockList ps pid' next) pid = stockOf (p :: ps) pid
    have h' : pid' ≠ pid := Ne.symm h
    by_cases hid : p.id = pid'
    · have hp : p.id ≠ pid := by rw [hid]; exact h'
      simp [stockOf, hid, hp, ih, h']
    · by_cases hpid : p.id = pid
      · simp [stockOf, hid, hpid, h]
      · simp [stockOf, hid, hpid, ih]

theorem decrementStock_stockOf_untouched (flt : Nat → Bool) (pid : String) :
    ∀ (items : List OrderItemDraft) (k : Nat) (ps : List ProductRow),
    (∀ it ∈ items, it.product_id ≠ some pid) →
    stockOf (decrementStock flt k ps items).1 pid = stockOf ps pid := by
  intro items
  induction items with
  | nil => intro k ps _; simp [decrementStock]
  | cons it rest ih =>
    intro k ps hunt
    have hhd : it.product_id ≠ some pid := hunt it (List.mem_cons_self it rest)
    have hrest : ∀ x ∈ rest, x.product_id ≠ some pid := fun x hx =>
      hunt x (List.mem_cons_of_mem it hx)
    by_cases h0 : flt k = true
    · simp [decrementStock, h0]
    · by_cases h1 : flt (k + 1) = true
      · simp [decrementStock, h0, h1]
      · cases hp : it.product_id with
        | none =>
          simp only [decrementStock, h0, h1, Bool.false_eq_true, if_false, hp]
          exact ih (k + 2) ps hrest
        | some pid' =>
          have hne : pid ≠ pid' := fun hc => hhd (hc ▸ hp)
          simp only [decrementStock, h0, h1, Bool.false_eq_true, if_false, hp]
          rw [ih (k + 2) _ hrest]
          exact stockOf_updateStockList_ne ps pid pid' _ hne

theorem decrementStock_stockOf_line (flt : Nat → Bool) (pid : String)
    (hflt : ∀ k, flt k = false) :
    ∀ (items : List OrderItemDraft) (k : Nat) (ps : List ProductRow)
      (it : OrderItemDraft) (s0 : Int),
    it ∈ items →
    (items.map OrderItemDraft.product_id).Nodup →
    it.product_id = some pid →
    stockOf ps pid = some s0 →
    stockOf (decrementStock flt k ps items).1 pid = some (max 0 (s0 - it.qty)) := by
  intro items
  induction items with
  | nil => intro k ps it s0 hit; exact absurd hit (List.not_mem_nil it)
  | cons hd rest ih =>
    intro k ps it s0 hit hnodup hpid hs0
    have hnodup' := hnodup
    rw [List.map_cons, List.nodup_cons] at hnodup'
    rcases List.mem_cons.mp hit with heq | hmem
    · subst heq
      have hrest : ∀ x ∈ rest, x.product_id ≠ some pid := by
        intro x hx hc
        apply hnodup'.1
        rw [hpid, ← hc]
        exact List.mem_map_of_mem OrderItemDraft.product_id hx
      simp only [decrementStock, hflt k, hflt (k + 1), Bool.false_eq_true, if_false, hpid]
      rw [decrementStock_stockOf_untouched flt pid rest (k + 2) _ hrest]
      rw [hs0]
      exact stockOf_updateStockList_same ps pid _ (by rw [hs0]; rfl)
    · have hhd : hd.product_id ≠ some pid := by
        intro hc
        apply hnodup'.1
        rw [hc, ← hpid]
        exact List.mem_map_of_mem OrderItemDraft.product_id hmem
      simp only [decrementStock, hflt k, hflt (k + 1), Bool.false_eq_true, if_false]
      cases hp : hd.product_id with
      | none => exact ih (k + 2) ps it s0 hmem hnodup'.2 hpid hs0
      | some pid' =>
        have hne : pid ≠ pid' := fun hc => hhd (hc ▸ hp)
        refine ih (k + 2) _ it s0 hmem hnodup'.2 hpid ?_
        rw [stockOf_updateStockList_ne ps pid pid' _ hne]
        exact hs0

theorem createOrder_products_noFail (flt : Nat → Bool) (orderId : String)
    (itemIds : List String) (db : DB) (draft : OrderDraft)
    (h0 : flt 0 = false) (h1 : flt 1 = false) (hkind : draft.kind = OrderKind.sale) :
    (createOrder flt orderId itemIds db draft).1.products
      = (decrementStock flt 2 db.products draft.items).1 := by
  simp only [createOrder, h0, h1, Bool.false_eq_true, if_false, hkind]
  cases hres : decrementStock flt 2 db.products draft.items with
  | mk ps rest =>
    by_cases hok : rest.2 = true <;> simp [hok]

/-! ## Concrete fixtures used by witness theorems -/

/-- A concrete product with stock 5. -/
def productW1 : ProductRow :=
  { id := "p1", name := "Zapato", color := "rojo", stock := 5,
    cost := 3, salePrice := 4, image := none }

/-- A concrete backend state holding `productW1`. -/
def dbW1 : DB :=
  { products := [productW1], clients := [], orders := [], order_items := [], nextSeq := 1 }

/-- A concrete sale draft buying 2 units of `productW1`. -/
def draftW1 : OrderDraft :=
  { kind := OrderKind.sale, total := 8, payment_method := some "Efectivo",
    performed_by_username := some "Anahi", performed_by_role := some Role.admin,
    client_id := some "c1", client_name := some "Cliente", client_document_id := some "123",
    client_phone := some "5551234", delivery_address := some "Retiro en tienda",
    subtotal := some 8, discount := some 0, notes := some "",
    items := [{ product_id := some "p1", product_name := some "Zapato",
                color := some "rojo", qty := 2, unit_price := 4, subtotal := 8 }] }

/-- A failure schedule under which every call succeeds. -/
def noFail : Nat → Bool := fun _ => false

/-- A failure schedule under which exactly call 1 (the order-items
insert) throws. -/
def failItemsInsert : Nat → Bool := fun k => k == 1

/-! ## Claim theorems -/

/-- C1: for every sale-kind order submission in which no backend call
fails and the purchased lines reference pairwise distinct existing
products, the stock recorded for each line's product after the
submission equals `max 0 (stockBefore - qty)`, where `stockBefore` is
the stock the decrement step read back for that line (equal, in this
sequential model, to the product's stock when `createOrder` started). -/
theorem sale_stock_decrement_c1 (flt : Nat → Bool) (orderId : String)
    (itemIds : List String) (db : DB) (draft : OrderDraft) (it : OrderItemDraft)
    (pid : String) (s0 : Int)
    (hflt : ∀ k, flt k = false) (hkind : draft.kind = OrderKind.sale)
    (hnodup : (draft.items.map OrderItemDraft.product_id).Nodup)
    (hit : it ∈ draft.items) (hpid : it.product_id = some pid)
    (hs0 : stockOf db.products pid = some s0) :
    stockOf (createOrder flt orderId itemIds db draft).1.products pid
      = some (max 0 (s0 - it.qty)) := by
  rw [createOrder_products_noFail flt orderId itemIds db draft (hflt 0) (hflt 1) hkind]
  exact decrementStock_stockOf_line flt pid hflt draft.items 2 db.products it s0
    hit hnodup hpid hs0

/-- Witness for C1 at a concrete input: buying 2 of a product with
stock 5 leaves stock 3. -/
theorem sale_stock_decrement_c1_witness :
    stockOf (createOrder noFail "o1" ["i1"] dbW1 draftW1).1.products "p1" = some 3 := by
  have h := sale_stock_decrement_c1 noFail "o1" ["i1"] dbW1 draftW1
    { product_id := some "p1", product_name := some "Zapato",
      color := some "rojo", qty := 2, unit_price := 4, subtotal := 8 }
    "p1" 5 (fun _ => rfl) rfl (by decide) (by decide) rfl (by decide)
  simpa using h

/-- C3: when the order-header insert succeeds (call 0) and the
order-items insert fails (call 1), `createOrder` throws, the header row
stays persisted, and neither the order-items table nor any product
stock changes. -/
theorem createOrder_partial_failure_c3 (flt : Nat → Bool) (orderId : String)
    (itemIds : List String) (db : DB) (draft : OrderDraft)
    (h0 : flt 0 = false) (h1 : flt 1 = true) :
    (createOrder flt orderId itemIds db draft).2 = none
    ∧ (createOrder flt orderId itemIds db draft).1.orders
        = db.orders ++ [orderHeaderRow orderId db.nextSeq draft]
    ∧ (createOrder flt orderId itemIds db draft).1.order_items = db.order_items
    ∧ (createOrder flt orderId itemIds db draft).1.products = db.products := by
  simp [createOrder, h0, h1]

/-- A concrete authenticated user. -/
def userW : AppUser := { username := "Anahi", role := Role.admin }

/-- A concrete selected client. -/
def clientW : ClientRow :=
  { id := "c1", name := "Cliente", documentId := "123", phone := "5551234",
    address := "Calle 1" }

/-- A cart asking for 9 units of `productW1`, which has stock 5. -/
def cartBadW : List CartLine := [{ product := productW1, quantity := 9 }]

/-- A cart asking for 2 units of `productW1`. -/
def cartOkW : List CartLine := [{ product := productW1, quantity := 2 }]

/-- An empty browser-local state. -/
def stW : LocalState := { tickets := none, salesOrders := [] }

/-- The sales order produced by the first witness submission. -/
def o1W : SalesOrder :=
  { id := "s1", kind := OrderKind.salesOrder, performedByUsername := "Anahi",
    performedByRole := Role.admin, clientId := "c1", clientName := "Cliente",
    clientDocumentId := "123", clientPhone := "5551234",
    deliveryAddress := "Retiro en tienda", paymentMethod := "Efectivo",
    sequence := 1, subtotal := 8, discount := 0, total := 8, notes := "",
    items := [{ productId := "p1", productName := "Zapato", color := "rojo",
                quantity := 2, unitPrice := 4, lineTotal := 8 }] }

/-- The local state after the first witness submission. -/
def st1W : LocalState :=
  { tickets := some { DEFAULT_TICKETS_CONFIG with
      order := { DEFAULT_TICKETS_CONFIG.order with nextNumber := some 2 } },
    salesOrders := [o1W] }

/-- The sales order produced by the second witness submission. -/
def o2W : SalesOrder := { o1W with id := "s2", sequence := 2 }

/-- The local state after the second witness submission. -/
def st2W : LocalState :=
  { tickets := some { DEFAULT_TICKETS_CONFIG with
      order := { DEFAULT_TICKETS_CONFIG.order with nextNumber := some 3 } },
    salesOrders := [o2W, o1W] }

/-- C2: a sale submission in which some cart line requires more than the
re-fetched stock, or references a missing product, returns the itemized
stock error, lists every offending line, and leaves the backend state
untouched (no order header, no items, no stock change). -/
theorem register_sale_stock_validation_c2 (flt : Nat → Bool) (orderId : String)
    (itemIds : List String) (db : DB) (u : AppUser) (client : ClientRow)
    (cart : List CartLine) (discountAmount : Int) (pm addr nts : String)
    (hdisc : discountAmount ≤ cartSubtotal cart)
    (hbad : ∃ line ∈ cart, lineProblem db.products line ≠ none) :
    registerSaleSubmit flt orderId itemIds db (some u) (some client) cart
        discountAmount pm addr nts
      = (db, SaleSubmitResult.stockError (stockProblems db.products cart))
    ∧ ∀ line ∈ cart, ∀ pr, lineProblem db.products line = some pr →
        pr ∈ stockProblems db.products cart := by
  constructor
  · obtain ⟨line, hline, hprob⟩ := hbad
    have hcart : ¬ cart.length = 0 := by
      intro h
      rw [List.length_eq_zero] at h
      subst h
      exact absurd hline (List.not_mem_nil line)
    have hnd : ¬ cartSubtotal cart < discountAmount := not_lt.mpr hdisc
    have hforall : ¬ ∀ a ∈ cart, lineProblem db.products a = none := by
      intro hall
      exact hprob (hall line hline)
    simp [registerSaleSubmit, hcart, hnd, hforall, stockProblems]
  · intro line hline pr hpr
    exact List.mem_filterMap.mpr ⟨line, hline, hpr⟩

/-- Witness for C2 at a concrete input: a cart requiring 9 of a product
whose re-fetched stock is 5 is rejected in full, and the offending line
is listed. -/
theorem register_sale_stock_validation_c2_witness :
    registerSaleSubmit noFail "o1" ["i1"] dbW1 (some userW) (some clientW) cartBadW
        0 "Efectivo" "" ""
      = (dbW1, SaleSubmitResult.stockError (stockProblems dbW1.products cartBadW))
    ∧ StockProblem.insufficient "p1" "Zapato" "rojo" 5 9
        ∈ stockProblems dbW1.products cartBadW := by
  have h := register_sale_stock_validation_c2 noFail "o1" ["i1"] dbW1 userW clientW
    cartBadW 0 "Efectivo" "" "" (by decide)
    ⟨{ product := productW1, quantity := 9 }, by decide, by decide⟩
  exact ⟨h.1, h.2 { product := productW1, quantity := 9 } (by decide) _ (by decide)⟩

/-- C6: in both submission flows, a discount exceeding the subtotal is
rejected with the dedicated validation error before any persistence
call, leaving the backend state and the browser-local state unchanged. -/
theorem discount_exceeds_subtotal_rejected_c6 (flt : Nat → Bool) (orderId newId : String)
    (itemIds : List String) (db : DB) (st : LocalState) (u1 u2 : AppUser)
    (client1 client2 : ClientRow) (cart1 cart2 : List CartLine) (d1 d2 : Int)
    (pm1 pm2 a1 a2 n1 n2 : String)
    (hcart1 : cart1.length ≠ 0) (hd1 : cartSubtotal cart1 < d1)
    (hcart2 : cart2.length ≠ 0) (hd2 : cartSubtotal cart2 < d2) :
    registerSaleSubmit flt orderId itemIds db (some u1) (some client1) cart1 d1 pm1 a1 n1
      = (db, SaleSubmitResult.validationError "El descuento no puede superar el subtotal.")
    ∧ salesOrderSubmit newId st (some u2) (some client2) cart2 d2 pm2 a2 n2
      = (st, SalesOrderResult.validationError "El descuento no puede superar el subtotal.") := by
  constructor
  · simp [registerSaleSubmit, hcart1, hd1]
  · simp [salesOrderSubmit, hcart2, hd2]

/-- Witness for C6 at a concrete input: discount 100 against subtotal 8. -/
theorem discount_exceeds_subtotal_rejected_c6_witness :
    registerSaleSubmit noFail "o1" ["i1"] dbW1 (some userW) (some clientW) cartOkW
        100 "Efectivo" "" ""
      = (dbW1, SaleSubmitResult.validationError "El descuento no puede superar el subtotal.")
    ∧ salesOrderSubmit "s1" stW (some userW) (some clientW) cartOkW 100 "Efectivo" "" ""
      = (stW, SalesOrderResult.validationError "El descuento no puede superar el subtotal.") :=
  discount_exceeds_subtotal_rejected_c6 noFail "o1" "s1" ["i1"] dbW1 stW userW userW
    clientW clientW cartOkW cartOkW 100 100 "Efectivo" "Efectivo" "" "" "" ""
    (by decide) (by decide) (by decide) (by decide)

/-- C8: an upsert without an id stores a row under the backend-generated
fresh id, which differs from every existing row id, growing the table by
one; an upsert with an existing id leaves the row count unchanged, for
products and clients alike. -/
theorem upsert_id_semantics_c8 (db : DB) (freshP freshC : String)
    (p : ProductDraft) (c : ClientDraft)
    (hfreshP : ∀ row ∈ db.products, row.id ≠ freshP)
    (hfreshC : ∀ row ∈ db.clients, row.id ≠ freshC) :
    (p.id = none →
      (upsertProduct freshP db p).2.id = freshP
      ∧ (∀ row ∈ db.products, row.id ≠ (upsertProduct freshP db p).2.id)
      ∧ (upsertProduct freshP db p).1.products.length = db.products.length + 1)
    ∧ (∀ pid, p.id = some pid → (∃ row ∈ db.products, row.id = pid) →
      (upsertProduct freshP db p).1.products.length = db.products.length)
    ∧ (c.id = none →
      (upsertClient freshC db c).2.id = freshC
      ∧ (∀ row ∈ db.clients, row.id ≠ (upsertClient freshC db c).2.id)
      ∧ (upsertClient freshC db c).1.clients.length = db.clients.length + 1)
    ∧ (∀ cid, c.id = some cid → (∃ row ∈ db.clients, row.id = cid) →
      (upsertClient freshC db c).1.clients.length = db.clients.length) := by
  refine ⟨?_, ?_, ?_, ?_⟩
  · intro hpn
    have hid : (upsertProduct freshP db p).2.id = freshP := by
      simp [upsertProduct, hpn]
    refine ⟨hid, ?_, ?_⟩
    · intro row hrow
      rw [hid]
      exact hfreshP row hrow
    · simp only [upsertProduct]
      rw [upsertBy_of_fresh ProductRow.id db.products _ (by
        intro x hx
        simpa [hpn] using hfreshP x hx)]
      simp
  · intro pid hpid hex
    simp only [upsertProduct]
    apply upsertBy_length_of_exists
    obtain ⟨row, hrow, hrid⟩ := hex
    exact ⟨row, hrow, by simpa [hpid] using hrid⟩
  · intro hcn
    have hid : (upsertClient freshC db c).2.id = freshC := by
      simp [upsertClient, hcn]
    refine ⟨hid, ?_, ?_⟩
    · intro row hrow
      rw [hid]
      exact hfreshC row hrow
    · simp only [upsertClient]
      rw [upsertBy_of_fresh ClientRow.id db.clients _ (by
        intro x hx
        simpa [hcn] using hfreshC x hx)]
      simp
  · intro cid hcid hex
    simp only [upsertClient]
    apply upsertBy_length_of_exists
    obtain ⟨row, hrow, hrid⟩ := hex
    exact ⟨row, hrow, by simpa [hcid] using hrid⟩

/-- Witness for C8 at concrete inputs: inserting a fresh product and
re-upserting an existing client id. -/
theorem upsert_id_semantics_c8_witness :
    ((upsertProduct "p9" dbW1
        { id := none, name := "Bolso", color := "azul", stock := 1,
          cost := 1, salePrice := 2, image := none }).1.products.length
      = dbW1.products.length + 1)
    ∧ ((upsertClient "c9" { dbW1 with clients := [clientW] }
        { id := some "c1", name := "Cliente", documentId := "123",
          phone := "5551234", address := "Calle 2" }).1.clients.length
      = ({ dbW1 with clients := [clientW] } : DB).clients.length) := by
  have h := upsert_id_semantics_c8 { dbW1 with clients := [clientW] } "p9" "c9"
    { id := none, name := "Bolso", color := "azul", stock := 1,
      cost := 1, salePrice := 2, image := none }
    { id := some "c1", name := "Cliente", documentId := "123",
      phone := "5551234", address := "Calle 2" }
    (by decide) (by decide)
  exact ⟨(h.1 rfl).2.2, h.2.2.2 "c1" rfl ⟨clientW, by decide, rfl⟩⟩

/-- Expression `Math.max(1, Number(x) || 1)` agrees with "1 when non-numeric or
below 1, else the stored value". -/
theorem max1_numberOr1 (x : Option Int) :
    max 1 (numberOr1 x) = (match x with | none => 1 | some n => max 1 n) := by
  cases x with
  | none => rfl
  | some n =>
    by_cases h : n = 0
    · subst h; decide
    · simp [numberOr1, h]

/-- The tickets config returned by `getTicketsConfig` always has a
non-empty company name and subtitle (the stored document is validated
for truthiness; the default is non-empty). -/
theorem getTicketsConfig_valid (stored : Option TicketsConfig) :
    (getTicketsConfig stored).companyName ≠ "" ∧ (getTicketsConfig stored).subtitle ≠ "" := by
  cases stored with
  | none => exact ⟨by decide, by decide⟩
  | some parsed =>
    by_cases h : parsed.companyName ≠ "" ∧ parsed.subtitle ≠ ""
    · simp only [getTicketsConfig]
      rw [if_pos h]
      exact h
    · simp only [getTicketsConfig]
      rw [if_neg h]
      exact ⟨by decide, by decide⟩

/-- A stored tickets config that passes the truthiness validation is
returned as-is. -/
theorem getTicketsConfig_some_of_valid (c : TicketsConfig)
    (h1 : c.companyName ≠ "") (h2 : c.subtitle ≠ "") :
    getTicketsConfig (some c) = c := by
  simp [getTicketsConfig, h1, h2]

/-- Shape of a successful sales-order submission: the composed order is
returned, its sequence is `max 1 (Number(nextNumber) || 1)`, the config
written back holds `sequence + 1`, and the order is prepended to the
stored history. -/
theorem salesOrderSubmit_ok_spec (newId : String) (st : LocalState) (u : AppUser)
    (client : ClientRow) (cart : List CartLine) (d : Int) (pm addr nts : String)
    (hcart : cart.length ≠ 0) (hdisc : d ≤ cartSubtotal cart) :
    ∃ order : SalesOrder,
      (salesOrderSubmit newId st (some u) (some client) cart d pm addr nts).2
        = SalesOrderResult.ok order
      ∧ order.sequence = max 1 (numberOr1 (getTicketsConfig st.tickets).order.nextNumber)
      ∧ (salesOrderSubmit newId st (some u) (some client) cart d pm addr nts).1.tickets
          = some { getTicketsConfig st.tickets with
                   order := { (getTicketsConfig st.tickets).order with
                              nextNumber := some (order.sequence + 1) } }
      ∧ (salesOrderSubmit newId st (some u) (some client) cart d pm addr nts).1.salesOrders
          = order :: st.salesOrders := by
  have hnd : ¬ cartSubtotal cart < d := not_lt.mpr hdisc
  simp only [salesOrderSubmit, hcart, hnd, if_false, ite_false, if_neg]
  exact ⟨_, rfl, rfl, rfl, rfl⟩

/-- C4: a sales-order submission draws its sequence from the Tickets
configuration's order side — `1` when the stored next number is
non-numeric or below 1, otherwise the stored value — and writes the
configuration back with `nextNumber = sequence + 1`. -/
theorem sales_order_ticket_numbering_c4 (newId : String) (st : LocalState) (u : AppUser)
    (client : ClientRow) (cart : List CartLine) (d : Int) (pm addr nts : String)
    (hcart : cart.length ≠ 0) (hdisc : d ≤ cartSubtotal cart) :
    ∃ order : SalesOrder,
      (salesOrderSubmit newId st (some u) (some client) cart d pm addr nts).2
        = SalesOrderResult.ok order
      ∧ order.sequence
          = (match (getTicketsConfig st.tickets).order.nextNumber with
             | none => 1
             | some n => max 1 n)
      ∧ (salesOrderSubmit newId st (some u) (some client) cart d pm addr nts).1.tickets
          = some { getTicketsConfig st.tickets with
                   order := { (getTicketsConfig st.tickets).order with
                              nextNumber := some (order.sequence + 1) } } := by
  obtain ⟨order, hok, hseq, htick, _⟩ :=
    salesOrderSubmit_ok_spec newId st u client cart d pm addr nts hcart hdisc
  exact ⟨order, hok, hseq.trans (max1_numberOr1 _), htick⟩

/-- Witness for C4 at a concrete input: with no stored config the
default next number 1 is assigned and 2 is written back. -/
theorem sales_order_ticket_numbering_c4_witness :
    ∃ order : SalesOrder,
      (salesOrderSubmit "s1" stW (some userW) (some clientW) cartOkW 0
          "Efectivo" "" "").2 = SalesOrderResult.ok order
      ∧ order.sequence
          = (match (getTicketsConfig stW.tickets).order.nextNumber with
             | none => 1
             | some n => max 1 n)
      ∧ (salesOrderSubmit "s1" stW (some userW) (some clientW) cartOkW 0
            "Efectivo" "" "").1.tickets
          = some { getTicketsConfig stW.tickets with
                   order := { (getTicketsConfig stW.tickets).order with
                              nextNumber := some (order.sequence + 1) } } :=
  sales_order_ticket_numbering_c4 "s1" stW userW clientW cartOkW 0 "Efectivo" "" ""
    (by decide) (by decide)

/-- C5: two sales-order submissions run one after the other, the second
reading the configuration state written by the first, receive strictly
increasing sequence numbers. -/
theorem sequential_sales_orders_increasing_c5 (id1 id2 : String) (st0 st1 st2 : LocalState)
    (u1 u2 : AppUser) (client1 client2 : ClientRow) (cart1 cart2 : List CartLine)
    (d1 d2 : Int) (pm1 pm2 a1 a2 n1 n2 : String) (o1 o2 : SalesOrder)
    (hcart1 : cart1.length ≠ 0) (hdisc1 : d1 ≤ cartSubtotal cart1)
    (hcart2 : cart2.length ≠ 0) (hdisc2 : d2 ≤ cartSubtotal cart2)
    (h1 : salesOrderSubmit id1 st0 (some u1) (some client1) cart1 d1 pm1 a1 n1
            = (st1, SalesOrderResult.ok o1))
    (h2 : salesOrderSubmit id2 st1 (some u2) (some client2) cart2 d2 pm2 a2 n2
            = (st2, SalesOrderResult.ok o2)) :
    o1.sequence < o2.sequence := by
  obtain ⟨o1', hok1, hseq1, htick1, _⟩ :=
    salesOrderSubmit_ok_spec id1 st0 u1 client1 cart1 d1 pm1 a1 n1 hcart1 hdisc1
  obtain ⟨o2', hok2, hseq2, _, _⟩ :=
    salesOrderSubmit_ok_spec id2 st1 u2 client2 cart2 d2 pm2 a2 n2 hcart2 hdisc2
  have he1 : o1' = o1 := by
    have h := congrArg Prod.snd h1
    rw [hok1] at h
    simpa using h
  have he2 : o2' = o2 := by
    have h := congrArg Prod.snd h2
    rw [hok2] at h
    simpa using h
  rw [he1] at hseq1 htick1
  rw [he2] at hseq2
  have hst1 : st1.tickets
      = some { getTicketsConfig st0.tickets with
               order := { (getTicketsConfig st0.tickets).order with
                          nextNumber := some (o1.sequence + 1) } } := by
    have h := congrArg Prod.fst h1
    simp only [Prod.fst] at h
    rw [← h]
    exact htick1
  have hone : (1 : Int) ≤ o1.sequence := by
    rw [hseq1]
    exact le_max_left _ _
  have hcfg1 : getTicketsConfig st1.tickets
      = { getTicketsConfig st0.tickets with
          order := { (getTicketsConfig st0.tickets).order with
                     nextNumber := some (o1.sequence + 1) } } := by
    rw [hst1]
    have hv := getTicketsConfig_valid st0.tickets
    exact getTicketsConfig_some_of_valid _ (by simpa using hv.1) (by simpa using hv.2)
  have hnz : ¬ (o1.sequence + 1 = 0) := by omega
  have h2eq : o2.sequence = o1.sequence + 1 := by
    rw [hseq2, hcfg1]
    show max 1 (numberOr1 (some (o1.sequence + 1))) = o1.sequence + 1
    simp only [numberOr1, hnz, if_false]
    exact max_eq_right (by omega)
  omega

/-- Witness for C5 at concrete inputs: two back-to-back submissions from
the empty local state receive sequences 1 and 2. -/
theorem sequential_sales_orders_increasing_c5_witness : o1W.sequence < o2W.sequence :=
  sequential_sales_orders_increasing_c5 "s1" "s2" stW st1W st2W userW userW
    clientW clientW cartOkW cartOkW 0 0 "Efectivo" "Efectivo" "" "" "" "" o1W o2W
    (by decide) (by decide) (by decide) (by decide) (by decide) (by decide)

theorem stockInv_updateStockList (ps : List ProductRow) (pid : String) (next : Int)
    (hps : ∀ p ∈ ps, 0 ≤ p.stock) (hn : 0 ≤ next) :
    ∀ p ∈ updateStockList ps pid next, 0 ≤ p.stock := by
  intro p hp
  rcases List.mem_map.mp hp with ⟨q, hq, hpq⟩
  subst hpq
  by_cases hid : q.id = pid
  · simpa [hid] using hn
  · simpa [hid] using hps q hq

theorem stockInv_decrementStock (flt : Nat → Bool) :
    ∀ (items : List OrderItemDraft) (k : Nat) (ps : List ProductRow),
    (∀ p ∈ ps, 0 ≤ p.stock) →
    ∀ p ∈ (decrementStock flt k ps items).1, 0 ≤ p.stock := by
  intro items
  induction items with
  | nil => intro k ps h; simpa [decrementStock] using h
  | cons it rest ih =>
    intro k ps h
    by_cases h0 : flt k = true
    · simpa [decrementStock, h0] using h
    · by_cases h1 : flt (k + 1) = true
      · simpa [decrementStock, h0, h1] using h
      · simp only [decrementStock, h0, h1, Bool.false_eq_true, if_false]
        cases hp : it.product_id with
        | none =>
          simp only [hp]
          exact ih (k + 2) ps h
        | some pid =>
          simp only [hp]
          exact ih (k + 2) _
            (stockInv_updateStockList ps pid _ h (le_max_left 0 _))

theorem createOrder_products_cases (flt : Nat → Bool) (orderId : String)
    (itemIds : List String) (db : DB) (draft : OrderDraft) :
    (createOrder flt orderId itemIds db draft).1.products = db.products
    ∨ (createOrder flt orderId itemIds db draft).1.products
        = (decrementStock flt 2 db.products draft.items).1 := by
  by_cases h0 : flt 0 = true
  · left; simp [createOrder, h0]
  · by_cases h1 : flt 1 = true
    · left; simp [createOrder, h0, h1]
    · cases hk : draft.kind with
      | sale =>
        right
        simp only [createOrder, h0, h1, Bool.false_eq_true, if_false, hk]
        cases hres : decrementStock flt 2 db.products draft.items with
        | mk ps rest => by_cases hok : rest.2 = true <;> simp [hok]
      | salesOrder => left; simp [createOrder, h0, h1, hk]

theorem stockInv_createOrder (flt : Nat → Bool) (orderId : String)
    (itemIds : List String) (db : DB) (draft : OrderDraft) (h : StockInv db) :
    StockInv (createOrder flt orderId itemIds db draft).1 := by
  intro p hp
  rcases createOrder_products_cases flt orderId itemIds db draft with hc | hc
  · exact h p (hc ▸ hp)
  · exact stockInv_decrementStock flt draft.items 2 db.products h p (hc ▸ hp)

/-- C7: every product-writing path of the application preserves
`stock ≥ 0` — the inventory form and import reject negative stock, the
sale decrement writes `max 0 (current - qty)` — so every state reachable
from a state satisfying the invariant satisfies it too. -/
theorem stock_nonneg_invariant_c7 (db0 db : DB) (h0 : StockInv db0)
    (hr : Reachable db0 db) : StockInv db := by
  induction hr with
  | refl => exact h0
  | step _ hstep ih =>
    cases hstep with
    | inventoryUpsert freshId p hstock =>
      intro row hrow
      rcases mem_upsertBy ProductRow.id _ _ row hrow with hold | hnew
      · exact ih row hold
      · rw [hnew]
        exact hstock
    | clientUpsert freshId c => exact ih
    | productDelete id =>
      intro row hrow
      exact ih row (List.mem_of_mem_filter hrow)
    | clientDelete id => exact ih
    | orderCreate flt orderId itemIds draft =>
      exact stockInv_createOrder flt orderId itemIds _ draft ih
    | orderDelete id => exact ih
    | ordersClear => exact ih

/-- Witness for C7: the invariant holds after a concrete sale executed
on a concrete one-product store. -/
theorem stock_nonneg_invariant_c7_witness :
    StockInv (createOrder noFail "o1" ["i1"] dbW1 draftW1).1 :=
  stock_nonneg_invariant_c7 dbW1 _
    (by intro p hp; rw [List.mem_singleton.mp hp]; decide)
    (Reachable.step Reachable.refl
      (AppStep.orderCreate dbW1 noFail "o1" ["i1"] draftW1))

/-- The users configuration used by the login witness. -/
def cfgW : UsersConfig :=
  { admin := { username := "Anahi", password := "12345" },
    operators := [{ id := "op-1", username := "Operador", password := "12345",
                    active := true }] }

/-- C9: login succeeds exactly when the trimmed username matches
case-insensitively and the password matches exactly against the admin
record (role admin) or some active operator record (role operator); every
failing combination yields the same generic invalid-credentials
message. -/
theorem login_generic_credentials_c9 (cfg : UsersConfig) (username password : String)
    (role : Role) :
    ((∃ usr, login cfg username password role = LoginResponse.success usr)
      ↔ loginSpecCond cfg username password role)
    ∧ (∀ m, login cfg username password role = LoginResponse.failure m →
        m = invalidCredentialsMessage) := by
  cases role with
  | admin =>
    by_cases h : toLowerJs (trimJs username) = toLowerJs cfg.admin.username ∧
        password = cfg.admin.password
    · refine ⟨⟨fun _ => h, fun _ => ⟨{ username := cfg.admin.username, role := Role.admin }, by simp [login, h]⟩⟩, ?_⟩
      intro m hm
      simp [login, h] at hm
    · refine ⟨⟨?_, fun hc => absurd hc h⟩, ?_⟩
      · rintro ⟨usr, husr⟩
        simp [login, h] at husr
      · intro m hm
        simp [login, h] at hm
        exact hm.symm
  | operator =>
    cases hfind : cfg.operators.find? (fun o =>
        o.active && (toLowerJs o.username == toLowerJs (trimJs username)) &&
        (o.password == password)) with
    | some op =>
      have hpred := List.find?_some hfind
      have hmem := List.mem_of_find?_eq_some hfind
      simp only [Bool.and_eq_true, beq_iff_eq] at hpred
      refine ⟨⟨fun _ => ⟨op, hmem, hpred.1.1, hpred.1.2, hpred.2⟩,
        fun _ => ⟨{ username := op.username, role := Role.operator }, by simp [login, hfind]⟩⟩, ?_⟩
      intro m hm
      simp [login, hfind] at hm
    | none =>
      refine ⟨⟨?_, ?_⟩, ?_⟩
      · rintro ⟨usr, husr⟩
        simp [login, hfind] at husr
      · rintro ⟨op, hmem, hact, huser, hpass⟩
        exact absurd (by simp [hact, huser, hpass])
          (List.find?_eq_none.mp hfind op hmem)
      · intro m hm
        simp [login, hfind] at hm
        exact hm.symm

/-- Witness for C9 at a concrete input: a padded, differently-cased
admin username with the right password satisfies the success
condition. -/
theorem login_generic_credentials_c9_witness :
    loginSpecCond cfgW " anahi " "12345" Role.admin :=
  (login_generic_credentials_c9 cfgW " anahi " "12345" Role.admin).1.mp
    ⟨{ username := "Anahi", role := Role.admin }, by decide⟩

/-- The cart used by the C10 counterexample: one line, quantity at its
snapshot stock bound of 2. -/
def cartC10 : List CartLine :=
  [{ product := { id := "a", name := "p", color := "c", stock := 2,
                  cost := 1, salePrice := 2, image := none }, quantity := 2 }]

/-- A later snapshot of the same product with restocked inventory. -/
def productC10 : ProductRow :=
  { id := "a", name := "p", color := "c", stock := 5, cost := 1, salePrice := 2,
    image := none }

/-- Counterexample to C10 as stated: adding a product whose id matches
an existing line but whose stock snapshot is larger than the line's
stored snapshot bumps the quantity above the stored snapshot's stock,
because `handleAddProduct` clamps to the passed product's stock, not the
stored line's. -/
theorem cart_invariant_c10_counterexample :
    CartInv cartC10 ∧ 1 ≤ productC10.stock
      ∧ ¬ CartInv (handleAddProduct cartC10 productC10) := by
  decide

/-- C10 (amended): assuming every product added has stock ≥ 1 and, when
the added product's id matches an existing cart line, its stock does not
exceed that line's stored snapshot stock (the page passes the very
product object stored in the line), every cart operation preserves
`1 ≤ quantity ≤ snapshot stock` for every line. -/
theorem cart_invariant_c10_amended (cart : List CartLine) (hinv : CartInv cart) :
    (∀ product : ProductRow, 1 ≤ product.stock →
      (∀ line ∈ cart, line.product.id = product.id →
        product.stock ≤ line.product.stock) →
      CartInv (handleAddProduct cart product))
    ∧ (∀ productId quantity, CartInv (handleUpdateQuantity cart productId quantity))
    ∧ (∀ productId delta, CartInv (handleAdjustQuantity cart productId delta)) := by
  refine ⟨?_, ?_, ?_⟩
  · intro product hstock hsnap
    unfold handleAddProduct
    by_cases hex : cart.any (fun line => line.product.id == product.id)
    · simp only [hex, if_true]
      intro line' hline'
      rcases List.mem_map.mp hline' with ⟨line, hline, heq⟩
      subst heq
      have h1 := hinv line hline
      by_cases hid : line.product.id = product.id
      · have h2 := hsnap line hline hid
        simp only [hid, if_true]
        exact ⟨le_min (by omega) hstock, le_trans (min_le_right _ _) h2⟩
      · simp only [hid, if_false]
        exact h1
    · simp only [hex, if_false]
      intro line' hline'
      rcases List.mem_append.mp hline' with hold | hnew
      · exact hinv line' hold
      · rw [List.mem_singleton.mp hnew]
        exact ⟨le_refl 1, hstock⟩
  · intro productId quantity line' hline'
    rcases List.mem_map.mp hline' with ⟨line, hline, heq⟩
    subst heq
    have h1 := hinv line hline
    by_cases hid : line.product.id = productId
    · have hs : (1 : Int) ≤ line.product.stock := le_trans h1.1 h1.2
      simp only [hid, if_true]
      exact ⟨le_max_left _ _, max_le hs (min_le_right _ _)⟩
    · simp only [hid, if_false]
      exact h1
  · intro productId delta line' hline'
    rcases List.mem_map.mp hline' with ⟨line, hline, heq⟩
    subst heq
    have h1 := hinv line hline
    by_cases hid : line.product.id = productId
    · have hs : (1 : Int) ≤ line.product.stock := le_trans h1.1 h1.2
      simp only [hid, if_true]
      exact ⟨le_max_left _ _, max_le hs (min_le_right _ _)⟩
    · simp only [hid, if_false]
      exact h1

/-- Witness for the amended C10 at concrete inputs. -/
theorem cart_invariant_c10_amended_witness :
    CartInv (handleAddProduct cartOkW productW1)
    ∧ CartInv (handleUpdateQuantity cartOkW "p1" 100)
    ∧ CartInv (handleAdjustQuantity cartOkW "p1" (-5)) := by
  have h := cart_invariant_c10_amended cartOkW (by decide)
  exact ⟨h.1 productW1 (by decide) (by decide), h.2.1 "p1" 100, h.2.2 "p1" (-5)⟩

/-- Witness for C3 at a concrete input. -/
theorem createOrder_partial_failure_c3_witness :
    (createOrder failItemsInsert "o1" ["i1"] dbW1 draftW1).2 = none
    ∧ (createOrder failItemsInsert "o1" ["i1"] dbW1 draftW1).1.orders
        = dbW1.orders ++ [orderHeaderRow "o1" dbW1.nextSeq draftW1]
    ∧ (createOrder failItemsInsert "o1" ["i1"] dbW1 draftW1).1.order_items = dbW1.order_items
    ∧ (createOrder failItemsInsert "o1" ["i1"] dbW1 draftW1).1.products = dbW1.products :=
  createOrder_partial_failure_c3 failItemsInsert "o1" ["i1"] dbW1 draftW1 rfl rfl

end Aijmiroshop
